import Mathlib

/-!
Verification of the `file-loader` repository: a directory-backed dynamic
module loader with hot-reload support.  This development shallowly embeds
the richest `Loader` class variant (the one exporting `DestroyFileError`,
async `unloadFromPath`, `initFile`, `setupWatcher`, and a `reload` class
hook) together with the error types of `src/errors.ts`.

Modelling conventions:
  * JS `Map`s become association lists with `alGet` / `alSet` / `alDelete`.
  * JS object identity is modelled by `Value`: a module namespace object is
    `Value.mod id` (identity chosen by the import environment) and a
    constructed instance is `Value.obj id` with ids drawn from a fresh-id
    counter in the loader state.  All stored values are objects, hence
    truthy, which is how the `if (oldInstance)` guards are read.
  * Methods that mutate `this` and may throw return
    `Except LoaderError _ × LoaderState`: the returned state holds the
    mutations performed before the throw.
  * External collaborators (dynamic `import`, user hooks) are pure
    parameters: `Env.importFile` for module resolution, and boolean-valued
    hook descriptions inside `ClassOptions` (a destroy hook is an
    `Option (Value → Bool)`, the Bool telling whether the hook completes
    without throwing; hook invocations are logged in the state).
  * Node `path` functions are modelled for POSIX paths without trailing
    separators, which covers every path the loader manufactures.
-/

namespace FileLoader

/-! ### Association lists (JS Map) -/

def alGet {α β : Type} [DecidableEq α] : List (α × β) → α → Option β
  | [], _ => none
  | (k, v) :: rest, key => if k = key then some v else alGet rest key

def alSet {α β : Type} [DecidableEq α] : List (α × β) → α → β → List (α × β)
  | [], key, val => [(key, val)]
  | (k, v) :: rest, key, val =>
      if k = key then (key, val) :: rest else (k, v) :: alSet rest key val

def alDelete {α β : Type} [DecidableEq α] : List (α × β) → α → List (α × β)
  | [], _ => []
  | (k, v) :: rest, key =>
      if k = key then alDelete rest key else (k, v) :: alDelete rest key

theorem alGet_alSet_self {α β : Type} [DecidableEq α]
    (l : List (α × β)) (k : α) (v : β) : alGet (alSet l k v) k = some v := by
  induction l with
  | nil => simp [alSet, alGet]
  | cons hd tl ih =>
      obtain ⟨k', v'⟩ := hd
      by_cases h : k' = k
      · simp [alSet, alGet, h]
      · simp [alSet, alGet, h, ih]

theorem alGet_alDelete_self {α β : Type} [DecidableEq α]
    (l : List (α × β)) (k : α) : alGet (alDelete l k) k = none := by
  induction l with
  | nil => simp [alDelete, alGet]
  | cons hd tl ih =>
      obtain ⟨k', v'⟩ := hd
      by_cases h : k' = k
      · simp [alDelete, h, ih]
      · simp [alDelete, alGet, h, ih]

theorem alGet_alDelete_ne {α β : Type} [DecidableEq α]
    (l : List (α × β)) (k k' : α) (h : k' ≠ k) :
    alGet (alDelete l k) k' = alGet l k' := by
  induction l with
  | nil => simp [alDelete]
  | cons hd tl ih =>
      obtain ⟨k₀, v₀⟩ := hd
      by_cases h0 : k₀ = k
      · subst h0
        have hne : ¬ (k₀ = k') := fun hh => h hh.symm
        simp [alDelete, alGet, hne, ih]
      · simp [alDelete, alGet, h0, ih]

/-! ### String primitives

The loader's paths are ASCII, so JS string indices coincide with
characters; string operations are carried out on the character list to
keep them structurally recursive. -/

def strLen (s : String) : Nat := s.data.length

def strTake (s : String) (n : Nat) : String := ⟨s.data.take n⟩

def strDrop (s : String) (n : Nat) : String := ⟨s.data.drop n⟩

def strDropRight (s : String) (n : Nat) : String :=
  ⟨s.data.take (s.data.length - n)⟩

/-- JS `s.indexOf(pre) === 0`. -/
def strStarts (s pre : String) : Bool := pre.data.isPrefixOf s.data

def strEnds (s suf : String) : Bool := suf.data.isSuffixOf s.data

/-! ### Node `path` primitives (POSIX, no trailing separators) -/

def lastIdxOf (l : List Char) (c : Char) : Option Nat :=
  match l.reverse.findIdx? (· = c) with
  | none => none
  | some j => some (l.length - 1 - j)

def firstSepIdx (s : String) : Option Nat :=
  s.data.findIdx? (· = '/')

def dirname (p : String) : String :=
  match lastIdxOf p.data '/' with
  | none => "."
  | some 0 => "/"
  | some i => strTake p i

def basename (p : String) : String :=
  match lastIdxOf p.data '/' with
  | none => p
  | some i => strDrop p (i + 1)

def extname (p : String) : String :=
  let b := basename p
  match lastIdxOf b.data '.' with
  | none => ""
  | some 0 => ""
  | some i => strDrop b i

def basenameNoExt (p : String) : String :=
  let b := basename p
  let e := extname p
  if e = "" then b
  else if strEnds b e then strDropRight b (strLen e) else b

def joinPath (a b : String) : String :=
  if a = "" then b
  else if b = "" then a
  else if strEnds a "/" then a ++ b
  else a ++ "/" ++ b

def resolvePath (cwd p : String) : String :=
  if strStarts p "/" then p else joinPath cwd p

/-! ### Data model -/

/-- A JS runtime value stored by the loader: either a module namespace
object (identity picked by the import environment) or a constructed
instance (identity drawn from the loader's fresh-id counter). -/
inductive Value where
  | mod (id : Nat)
  | obj (id : Nat)
deriving DecidableEq, Repr

/-- A constructor found inside a module; `ctorName` is `constructor.name`. -/
structure Ctor where
  ctorName : String
deriving DecidableEq, Repr

/-- A resolved module: its namespace-object identity and its default
export when that export is a constructor function. -/
structure Module where
  modId : Nat
  defaultExport : Option Ctor

/-- The external dynamic-import collaborator: `none` means `import(path)`
throws. -/
structure Env where
  importFile : String → Option Module

/-- The `mainFile` option: a literal file name or a resolver function. -/
inductive MainFile where
  | lit (s : String)
  | fn (f : String → String)

/-- JS truthiness of the `mainFile` field (a string is falsy iff empty;
a function is always truthy). -/
def mainFileTruthy : MainFile → Bool
  | .lit s => !s.data.isEmpty
  | .fn _ => true

/-- `ClassOptions`: `destroy` is `some d` when a destroy hook is
configured, `d v` telling whether it completes without throwing on `v`;
`reload` tells whether a reload (rebuild) hook is configured — its
invocations are logged in the state. -/
structure ClassOptions where
  instantiate : Bool
  params : List String
  findConstructor : Option (String → Module → Option Ctor)
  destroy : Option (Value → Bool)
  reload : Bool

def defaultClassOptions : ClassOptions :=
  { instantiate := true, params := [], findConstructor := none,
    destroy := none, reload := false }

def defaultAllowedExts : List String := [".js", ".ts"]

structure LoaderOptions where
  path : String
  nested : Bool
  mainFile : Option MainFile
  ignored : List String
  autoLoad : Bool
  classes : Option ClassOptions
  allowedFileExts : Option (List String)
  watch : Bool

/-- The immutable configuration a constructed `Loader` carries. -/
structure Loader where
  path : String
  nested : Bool
  mainFile : MainFile
  classes : ClassOptions
  allowedFileExts : List String
  ignored : List String
  watch : Bool

/-- Events the loader emits, with their payloads. -/
inductive Event where
  | load (name : Option String) (v : Value)
  | unload (v : Value)
  | reload (newV oldV : Value)
  | loadMany (vs : List Value)
  | ready
  | err
deriving DecidableEq, Repr

inductive LoaderError where
  | configError
  | fileLoadError (filePath : String)
  | loadFilesError (path : String)
  | fileNotFoundError (fileName : String)
  | destroyFileError (path : String) (inst : Value)
deriving DecidableEq, Repr

/-- The loader's mutable state: the three identity maps, the watch set,
the emitted events, logs of hook invocations and of require-cache
invalidations, the fresh-id counter, and the ready flag. -/
structure LoaderState where
  fileMap : List (String × Value)
  pathMap : List (String × String)
  nameMap : List (Value × String)
  watched : List String
  events : List Event
  destroyCalls : List Value
  rebuildCalls : List (Value × Value)
  invalidated : List String
  nextId : Nat
  ready : Bool
deriving DecidableEq, Repr

def initialState : LoaderState :=
  { fileMap := [], pathMap := [], nameMap := [], watched := [],
    events := [], destroyCalls := [], rebuildCalls := [],
    invalidated := [], nextId := 0, ready := false }

def addWatch (l : List String) (p : String) : List String :=
  if p ∈ l then l else l ++ [p]

def removeWatch (l : List String) (p : String) : List String :=
  l.filter (fun q => decide (q ≠ p))

/-! ### Loader methods (richest variant of the source's Loader class) -/

/-- `processName`: name keys are lowercased. -/
def processName (name : String) : String := ⟨name.data.map Char.toLower⟩

/-- The `Loader` constructor.  `fileExt` stands for
`path.extname(__filename).toLowerCase()` and `cwd` for the process
working directory consulted by `path.resolve`.  The `|| !this.files`
disjunct of the guard is omitted: `this.files` returns the freshly
created `fileMap`, an always-truthy object.  The fire-and-forget
`this.loadFiles()` triggered when `autoLoad` is not `false` is
asynchronous and not part of the synchronous construction modelled
here. -/
def mkLoader (fileExt cwd : String) (opts : LoaderOptions) :
    Except LoaderError (Loader × LoaderState) :=
  let p := resolvePath cwd opts.path
  let mf := match opts.mainFile with
    | some m => if mainFileTruthy m then m else .lit ("index" ++ fileExt)
    | none => .lit ("index" ++ fileExt)
  let cls := opts.classes.getD defaultClassOptions
  let exts := opts.allowedFileExts.getD defaultAllowedExts
  if p = "" ∨ (opts.nested ∧ mainFileTruthy mf = false) then
    .error .configError
  else
    .ok ({ path := p, nested := opts.nested, mainFile := mf, classes := cls,
           allowedFileExts := exts, ignored := opts.ignored,
           watch := opts.watch },
         initialState)

def findConstructor (L : Loader) (name : String) (mdl : Module) : Option Ctor :=
  match L.classes.findConstructor with
  | some f => f name mdl
  | none => mdl.defaultExport

def findPathFromName (s : LoaderState) (name : String) : Option String :=
  alGet s.pathMap (processName name)

def extractNameFromFilePath (L : Loader) (filePath : String) : String :=
  if L.nested then dirname filePath else basenameNoExt filePath

def getMainFilePath (L : Loader) (fileName : String) (dir : String)
    (nested : Bool) : String :=
  let f := joinPath dir fileName
  if nested then
    match L.mainFile with
    | .fn g => g f
    | .lit m => joinPath f m
  else f

def getWatchPath (L : Loader) (filePath : String) : String :=
  if L.nested then dirname filePath else filePath

/-- JS truthiness of an optional string (`undefined` and `""` are falsy). -/
def truthyStr : Option String → Option String
  | some "" => none
  | o => o

/-- The name `initFile` works with: the caller-supplied one when truthy,
otherwise the one derived from the path. -/
def effectiveName (L : Loader) (name? : Option String) (filePath : String) :
    String :=
  match truthyStr name? with
  | some n => n
  | none => extractNameFromFilePath L filePath

/-- `initFile(name, filePath, file)`: derive the name when the argument is
falsy, register the watch path, optionally instantiate — writing the
`pathMap` and `nameMap` rows before `name = constructor.name` reassigns
the local variable — and store the value in `fileMap`. -/
def initFile (L : Loader) (name? : Option String) (filePath : String)
    (mdl : Module) (s : LoaderState) : Value × LoaderState :=
  let name := effectiveName L name? filePath
  let s := if L.watch
    then { s with watched := addWatch s.watched (getWatchPath L filePath) }
    else s
  match (if L.classes.instantiate then findConstructor L name mdl else none) with
  | some _ctor =>
      let inst := Value.obj s.nextId
      let s := { s with
        nextId := s.nextId + 1,
        pathMap := alSet s.pathMap (processName name) filePath,
        nameMap := alSet s.nameMap inst name }
      -- the source's `name = constructor.name` only reassigns the local
      -- variable, which is not read again in this method
      let s := { s with fileMap := alSet s.fileMap filePath inst }
      (inst, s)
  | none =>
      let inst := Value.mod mdl.modId
      let s := { s with fileMap := alSet s.fileMap filePath inst }
      (inst, s)

/-- `loadFromPath(filePath, name?, emit = true)`. -/
def loadFromPath (L : Loader) (env : Env) (filePath : String)
    (name? : Option String) (emit : Bool) (s : LoaderState) :
    Except LoaderError Value × LoaderState :=
  match alGet s.fileMap filePath with
  | some oldInstance => (.ok oldInstance, s)
  | none =>
    match env.importFile filePath with
    | none => (.error (.fileLoadError filePath), s)
    | some mdl =>
      let r := initFile L name? filePath mdl s
      let s := if emit
        then { r.2 with events := r.2.events ++ [.load name? r.1] }
        else r.2
      (.ok r.1, s)

def loadFromFileName (L : Loader) (env : Env) (fileName : String)
    (s : LoaderState) : Except LoaderError Value × LoaderState :=
  loadFromPath L env (getMainFilePath L fileName L.path L.nested) none true s

/-- `unloadFromPath(filePath, emit = true)`: unregister the watch path,
look up the name via `nameMap`, invoke the destroy hook (wrapping a throw
as `DestroyFileError`), then delete the three rows — `pathMap.delete`
receiving the original-case name — and emit `unload`. -/
def unloadFromPath (L : Loader) (filePath : String) (emit : Bool)
    (s : LoaderState) : Except LoaderError (Option Value) × LoaderState :=
  match alGet s.fileMap filePath with
  | none => (.ok none, s)
  | some inst =>
    let s := if L.watch
      then { s with watched := removeWatch s.watched (getWatchPath L filePath) }
      else s
    let name? := alGet s.nameMap inst
    match L.classes.destroy with
    | some d =>
        let s := { s with destroyCalls := s.destroyCalls ++ [inst] }
        if d inst then
          let s := { s with
            fileMap := alDelete s.fileMap filePath,
            pathMap := match name? with
              | some n => alDelete s.pathMap n
              | none => s.pathMap,
            nameMap := alDelete s.nameMap inst }
          let s := if emit
            then { s with events := s.events ++ [.unload inst] } else s
          (.ok (some inst), s)
        else
          (.error (.destroyFileError filePath inst), s)
    | none =>
        let s := { s with
          fileMap := alDelete s.fileMap filePath,
          pathMap := match name? with
            | some n => alDelete s.pathMap n
            | none => s.pathMap,
          nameMap := alDelete s.nameMap inst }
        let s := if emit
          then { s with events := s.events ++ [.unload inst] } else s
        (.ok (some inst), s)

/-- `unload(name)`: resolve the name through `pathMap` (a falsy path means
`null`) and delegate. -/
def unload (L : Loader) (name : String) (s : LoaderState) :
    Except LoaderError (Option Value) × LoaderState :=
  match truthyStr (findPathFromName s name) with
  | none => (.ok none, s)
  | some filePath => unloadFromPath L filePath true s

/-- `reloadFromPath(filePath)`: invalidate the require cache, unload with
the `unload` emission enabled, and — when an old instance existed —
re-load under `this.nameMap.get(oldInstance)` (evaluated on the
post-unload state) with the `load` emission suppressed, run the reload
(rebuild) hook and emit `reload`. -/
def reloadFromPath (L : Loader) (env : Env) (filePath : String)
    (s : LoaderState) : Except LoaderError (Option Value) × LoaderState :=
  let s := { s with invalidated := s.invalidated ++ [filePath] }
  match unloadFromPath L filePath true s with
  | (.error e, s) => (.error e, s)
  | (.ok oldInstance?, s) =>
    match oldInstance? with
    | none => (.ok none, s)
    | some oldInstance =>
      match loadFromPath L env filePath (alGet s.nameMap oldInstance) false s with
      | (.error e, s) => (.error e, s)
      | (.ok newInstance, s) =>
        let s := if L.classes.reload
          then { s with rebuildCalls := s.rebuildCalls ++ [(newInstance, oldInstance)] }
          else s
        let s := { s with events := s.events ++ [.reload newInstance oldInstance] }
        (.ok (some newInstance), s)

/-- `reload(name)`: a falsy resolved path rejects with
`FileNotFoundError`. -/
def reload (L : Loader) (env : Env) (name : String) (s : LoaderState) :
    Except LoaderError (Option Value) × LoaderState :=
  match truthyStr (findPathFromName s name) with
  | none => (.error (.fileNotFoundError name), s)
  | some filePath => reloadFromPath L env filePath s

/-- The path-folding step of the watcher's change handler in
`setupWatcher`: in nested mode a source path under the root is cut down
to the first segment of its root-relative remainder. -/
def foldWatchPath (L : Loader) (srcPath : String) : String :=
  if L.nested then
    if strStarts srcPath L.path then
      let relativePath := strDrop srcPath (strLen L.path + 1)
      match firstSepIdx relativePath with
      | none => srcPath
      | some i => strTake relativePath i
    else srcPath
  else srcPath

/-- The watcher's change handler: fold the notified path and reload it
when it is a current `fileMap` key, otherwise do nothing. -/
def onWatchEvent (L : Loader) (env : Env) (srcPath : String)
    (s : LoaderState) : Except LoaderError (Option Value) × LoaderState :=
  let filePath := foldWatchPath L srcPath
  if (alGet s.fileMap filePath).isSome then
    reloadFromPath L env filePath s
  else
    (.ok none, s)

/-! ### Concrete fixtures used by the claim theorems -/

/-- A reload (rebuild) hook configured on top of the defaults. -/
def clsRebuild : ClassOptions :=
  { defaultClassOptions with reload := true }

/-- Instantiation disabled: resolved modules are stored raw. -/
def clsNoInst : ClassOptions :=
  { defaultClassOptions with instantiate := false }

/-- A destroy hook that always throws. -/
def clsBadDestroy : ClassOptions :=
  { defaultClassOptions with destroy := some (fun _ => false) }

/-- A flat-mode loader rooted at `/r`. -/
def flatLoader (cls : ClassOptions) : Loader :=
  { path := "/r", nested := false, mainFile := .lit "index.ts",
    classes := cls, allowedFileExts := defaultAllowedExts,
    ignored := [], watch := false }

/-- A nested-mode loader rooted at `/root`, watching. -/
def nestedLoader : Loader :=
  { path := "/root", nested := true, mainFile := .lit "index.ts",
    classes := defaultClassOptions, allowedFileExts := defaultAllowedExts,
    ignored := [], watch := true }

def envOf (entries : List (String × Module)) : Env :=
  { importFile := fun p => alGet entries p }

/-- `/r/A.ts` exports a constructor named `A` (uppercase derived name). -/
def envUpper : Env :=
  envOf [("/r/A.ts", { modId := 0, defaultExport := some { ctorName := "A" } })]

/-- `/r/a.ts` exports a constructor named `Widget`. -/
def envWidget : Env :=
  envOf [("/r/a.ts", { modId := 0, defaultExport := some { ctorName := "Widget" } })]

/-- `/root/bakery/index.ts` exports a constructor named `Bakery`. -/
def envBakery : Env :=
  envOf [("/root/bakery/index.ts",
          { modId := 0, defaultExport := some { ctorName := "Bakery" } })]

/-! ### General lemmas about the operations -/

theorem alGet_alSet_ne {α β : Type} [DecidableEq α]
    (l : List (α × β)) (k k' : α) (v : β) (h : k' ≠ k) :
    alGet (alSet l k v) k' = alGet l k' := by
  have hne : ¬ (k = k') := fun hh => h hh.symm
  induction l with
  | nil => simp [alSet, alGet, hne]
  | cons hd tl ih =>
      obtain ⟨k₀, v₀⟩ := hd
      by_cases h0 : k₀ = k
      · subst h0
        simp [alSet, alGet, hne]
      · simp [alSet, alGet, h0, ih]

theorem loadFromPath_loaded (L : Loader) (env : Env) (p : String)
    (n? : Option String) (e : Bool) (s : LoaderState) (v : Value)
    (h : alGet s.fileMap p = some v) :
    loadFromPath L env p n? e s = (.ok v, s) := by
  simp [loadFromPath, h]

theorem initFile_fileMap_self (L : Loader) (n? : Option String) (p : String)
    (mdl : Module) (s : LoaderState) :
    alGet (initFile L n? p mdl s).2.fileMap p =
      some (initFile L n? p mdl s).1 := by
  unfold initFile
  dsimp only
  split <;> simp [alGet_alSet_self]

theorem initFile_events (L : Loader) (n? : Option String) (p : String)
    (mdl : Module) (s : LoaderState) :
    (initFile L n? p mdl s).2.events = s.events := by
  unfold initFile
  dsimp only
  cases hw : L.watch <;> split <;> simp

/-- The destroy hook, when configured, completes without throwing on `v`. -/
def destroyOk (L : Loader) (v : Value) : Prop :=
  ∀ d, L.classes.destroy = some d → d v = true

/-- What a successful `unloadFromPath` does to the three identity maps:
`fileMap` loses the path key, `pathMap` loses the key equal to the
original-case registered name, `nameMap` loses the instance key. -/
theorem unloadFromPath_components (L : Loader) (p : String) (v : Value)
    (n : String) (s : LoaderState)
    (hf : alGet s.fileMap p = some v)
    (hn : alGet s.nameMap v = some n)
    (hd : destroyOk L v) :
    (unloadFromPath L p true s).1 = .ok (some v) ∧
    (unloadFromPath L p true s).2.fileMap = alDelete s.fileMap p ∧
    (unloadFromPath L p true s).2.pathMap = alDelete s.pathMap n ∧
    (unloadFromPath L p true s).2.nameMap = alDelete s.nameMap v := by
  unfold unloadFromPath
  simp only [hf]
  cases hw : L.watch <;> rcases hdd : L.classes.destroy with _ | d
  · simp [hn]
  · have hdv := hd d hdd
    simp [hn, hdv]
  · simp [hn]
  · have hdv := hd d hdd
    simp [hn, hdv]

/-! ### Claim C1 -/

/-- The state after loading `/r/A.ts` (derived name `A`, uppercase). -/
def c1stateU : LoaderState :=
  (loadFromPath (flatLoader defaultClassOptions) envUpper "/r/A.ts" none true
    initialState).2

/-- C1 counterexample: `/r/A.ts` is loaded with registered logical name
`A`; `unloadFromPath` completes successfully, yet the name still resolves
to the path (the `pathMap` row keyed by the lowercased name was deleted
with the original-case name and survives) and a subsequent `reload("A")`
does not fail with `FileNotFoundError` — it succeeds returning null. -/
theorem c1_counterexample :
    alGet c1stateU.nameMap (Value.obj 0) = some "A" ∧
    alGet c1stateU.fileMap "/r/A.ts" = some (Value.obj 0) ∧
    (unloadFromPath (flatLoader defaultClassOptions) "/r/A.ts" true
        c1stateU).1 = .ok (some (Value.obj 0)) ∧
    findPathFromName
      (unloadFromPath (flatLoader defaultClassOptions) "/r/A.ts" true
        c1stateU).2 "A" = some "/r/A.ts" ∧
    (reload (flatLoader defaultClassOptions) envUpper "A"
      (unloadFromPath (flatLoader defaultClassOptions) "/r/A.ts" true
        c1stateU).2).1 = .ok none := by
  refine ⟨rfl, rfl, rfl, rfl, rfl⟩

/-- C1 (amended): for a path whose unit is registered under a name that is
already in lowercase form (`processName n = n`), a successful
`unloadFromPath` removes all three identity rows, and a subsequent reload
by that name fails with `FileNotFoundError`.  For a registered name
containing uppercase the `pathMap` row survives, because the row is keyed
by the lowercased name but deleted with the original-case name. -/
theorem c1_unload_removes_rows_lowercase (L : Loader) (env : Env)
    (p n : String) (v : Value) (s : LoaderState)
    (hf : alGet s.fileMap p = some v)
    (hn : alGet s.nameMap v = some n)
    (hlc : processName n = n)
    (hd : destroyOk L v) :
    (unloadFromPath L p true s).1 = .ok (some v) ∧
    alGet (unloadFromPath L p true s).2.fileMap p = none ∧
    findPathFromName (unloadFromPath L p true s).2 n = none ∧
    alGet (unloadFromPath L p true s).2.nameMap v = none ∧
    (reload L env n (unloadFromPath L p true s).2).1 =
      .error (.fileNotFoundError n) := by
  obtain ⟨h1, h2, h3, h4⟩ := unloadFromPath_components L p v n s hf hn hd
  have hpath : findPathFromName (unloadFromPath L p true s).2 n = none := by
    rw [findPathFromName, h3, hlc, alGet_alDelete_self]
  refine ⟨h1, ?_, hpath, ?_, ?_⟩
  · rw [h2, alGet_alDelete_self]
  · rw [h4, alGet_alDelete_self]
  · rw [reload, hpath]
    rfl

/-- C1 witness: the amended theorem at `/r/a.ts` (lowercase name `a`). -/
theorem c1_witness :
    (unloadFromPath (flatLoader defaultClassOptions) "/r/a.ts" true
      (loadFromPath (flatLoader defaultClassOptions) envWidget "/r/a.ts"
        none true initialState).2).1 = .ok (some (Value.obj 0)) ∧
    alGet (unloadFromPath (flatLoader defaultClassOptions) "/r/a.ts" true
      (loadFromPath (flatLoader defaultClassOptions) envWidget "/r/a.ts"
        none true initialState).2).2.fileMap "/r/a.ts" = none ∧
    findPathFromName
      (unloadFromPath (flatLoader defaultClassOptions) "/r/a.ts" true
        (loadFromPath (flatLoader defaultClassOptions) envWidget "/r/a.ts"
          none true initialState).2).2 "a" = none ∧
    alGet (unloadFromPath (flatLoader defaultClassOptions) "/r/a.ts" true
      (loadFromPath (flatLoader defaultClassOptions) envWidget "/r/a.ts"
        none true initialState).2).2.nameMap (Value.obj 0) = none ∧
    (reload (flatLoader defaultClassOptions) envWidget "a"
      (unloadFromPath (flatLoader defaultClassOptions) "/r/a.ts" true
        (loadFromPath (flatLoader defaultClassOptions) envWidget "/r/a.ts"
          none true initialState).2).2).1 =
      .error (.fileNotFoundError "a") :=
  c1_unload_removes_rows_lowercase (flatLoader defaultClassOptions)
    envWidget "/r/a.ts" "a" (Value.obj 0)
    (loadFromPath (flatLoader defaultClassOptions) envWidget "/r/a.ts"
      none true initialState).2
    (by decide) (by decide) (by decide)
    (fun d hdd => by cases hdd)

/-! ### Claim C2 -/

/-- The state after loading `/r/a.ts` under the caller-supplied name
`custom`, with a rebuild hook configured. -/
def c2state : LoaderState :=
  (loadFromPath (flatLoader clsRebuild) envWidget "/r/a.ts" (some "custom")
    true initialState).2

/-- C2 evaluated at the failing input: the unit at `/r/a.ts` is registered
under the logical name `custom`.  `reloadFromPath` destroys the old
instance and emits `unload`, suppresses the `load` emission, invokes the
rebuild hook with the new and old instances, and emits `reload(new, old)`
— but the replacement is registered under the path-derived name `a`, not
the old registered name `custom`: the `this.nameMap.get(oldInstance)`
passed to the inner load is evaluated after `unloadFromPath` already
deleted that entry, so it is always undefined. -/
theorem c2_reload_rederives_name :
    alGet c2state.nameMap (Value.obj 0) = some "custom" ∧
    reloadFromPath (flatLoader clsRebuild) envWidget "/r/a.ts" c2state =
      (.ok (some (Value.obj 1)),
       { fileMap := [("/r/a.ts", Value.obj 1)],
         pathMap := [("a", "/r/a.ts")],
         nameMap := [(Value.obj 1, "a")],
         watched := [],
         events := [.load (some "custom") (Value.obj 0),
                    .unload (Value.obj 0),
                    .reload (Value.obj 1) (Value.obj 0)],
         destroyCalls := [],
         rebuildCalls := [(Value.obj 1, Value.obj 0)],
         invalidated := ["/r/a.ts"],
         nextId := 2,
         ready := false }) :=
  ⟨rfl, rfl⟩

/-! ### Claim C3 -/

/-- C3 counterexample: `/r/a.ts` resolves to a module, and no unit is
loaded for it; yet `reloadFromPath` does not degenerate to a plain load —
it resolves nothing, registers nothing, and returns null, the only state
change being the require-cache invalidation. -/
theorem c3_counterexample :
    (envWidget.importFile "/r/a.ts").isSome = true ∧
    reloadFromPath (flatLoader defaultClassOptions) envWidget "/r/a.ts"
        initialState =
      (.ok none, { initialState with invalidated := ["/r/a.ts"] }) :=
  ⟨rfl, rfl⟩

/-- C3 (amended): for a path with no currently loaded unit,
`reloadFromPath` performs no load at all: it returns null and leaves the
state unchanged except for the require-cache invalidation entry; no
`reload` event is emitted and nothing is registered. -/
theorem c3_reload_unloaded_noop (L : Loader) (env : Env) (p : String)
    (s : LoaderState) (hm : alGet s.fileMap p = none) :
    reloadFromPath L env p s =
      (.ok none, { s with invalidated := s.invalidated ++ [p] }) := by
  unfold reloadFromPath unloadFromPath
  simp [hm]

/-- C3 witness: the amended theorem at `/r/a.ts` on the empty state. -/
theorem c3_witness :
    reloadFromPath (flatLoader defaultClassOptions) envWidget "/r/a.ts"
        initialState =
      (.ok none,
       { initialState with invalidated := initialState.invalidated ++ ["/r/a.ts"] }) :=
  c3_reload_unloaded_noop (flatLoader defaultClassOptions) envWidget
    "/r/a.ts" initialState (by decide)

/-! ### Claim C4 -/

/-- C4: `loadFromPath` is idempotent on a loaded path — after a successful
load, a second call with the same arguments returns the very same unit
and the very same state (no module resolution, no instantiation, no
mutation). -/
theorem c4_loadFromPath_idempotent (L : Loader) (env : Env) (p : String)
    (n? : Option String) (e : Bool) (s s₁ : LoaderState) (v : Value)
    (h : loadFromPath L env p n? e s = (.ok v, s₁)) :
    loadFromPath L env p n? e s₁ = (.ok v, s₁) := by
  rcases hm : alGet s.fileMap p with _ | w
  · rcases he : env.importFile p with _ | mdl
    · simp [loadFromPath, hm, he] at h
    · simp only [loadFromPath, hm, he, Prod.mk.injEq] at h
      obtain ⟨hv, hs⟩ := h
      injection hv with hv
      have hfm : alGet s₁.fileMap p = some v := by
        rw [← hs, ← hv]
        cases e <;> simpa using initFile_fileMap_self L n? p mdl s
      exact loadFromPath_loaded L env p n? e s₁ v hfm
  · have h0 := loadFromPath_loaded L env p n? e s w hm
    rw [h0, Prod.mk.injEq] at h
    obtain ⟨hv, hs⟩ := h
    injection hv with hv
    subst hs hv
    exact loadFromPath_loaded L env p n? e s w hm

/-- C4 witness: load `/r/a.ts` once, then again. -/
theorem c4_witness :
    loadFromPath (flatLoader defaultClassOptions) envWidget "/r/a.ts" none
        true
        (loadFromPath (flatLoader defaultClassOptions) envWidget "/r/a.ts"
          none true initialState).2 =
      (.ok (Value.obj 0),
       (loadFromPath (flatLoader defaultClassOptions) envWidget "/r/a.ts"
         none true initialState).2) :=
  c4_loadFromPath_idempotent (flatLoader defaultClassOptions) envWidget
    "/r/a.ts" none true initialState
    (loadFromPath (flatLoader defaultClassOptions) envWidget "/r/a.ts"
      none true initialState).2
    (Value.obj 0) rfl

/-! ### Claim C5 -/

/-- C5: when the configured destroy hook throws, `unloadFromPath` fails
with `DestroyFileError` carrying the path and the instance, no identity
row is removed, and no `unload` event is emitted. -/
theorem c5_destroy_failure_keeps_rows (L : Loader) (d : Value → Bool)
    (p : String) (v : Value) (e : Bool) (s : LoaderState)
    (hdes : L.classes.destroy = some d) (hfail : d v = false)
    (hf : alGet s.fileMap p = some v) :
    (unloadFromPath L p e s).1 = .error (.destroyFileError p v) ∧
    (unloadFromPath L p e s).2.fileMap = s.fileMap ∧
    (unloadFromPath L p e s).2.pathMap = s.pathMap ∧
    (unloadFromPath L p e s).2.nameMap = s.nameMap ∧
    (unloadFromPath L p e s).2.events = s.events := by
  unfold unloadFromPath
  simp only [hf]
  cases hw : L.watch <;> simp [hdes, hfail]

/-- C5 witness: a throwing destroy hook at `/r/a.ts`. -/
theorem c5_witness :
    (unloadFromPath (flatLoader clsBadDestroy) "/r/a.ts" true
      (loadFromPath (flatLoader clsBadDestroy) envWidget "/r/a.ts" none
        true initialState).2).1 =
      .error (.destroyFileError "/r/a.ts" (Value.obj 0)) ∧
    (unloadFromPath (flatLoader clsBadDestroy) "/r/a.ts" true
      (loadFromPath (flatLoader clsBadDestroy) envWidget "/r/a.ts" none
        true initialState).2).2.fileMap =
      (loadFromPath (flatLoader clsBadDestroy) envWidget "/r/a.ts" none
        true initialState).2.fileMap ∧
    (unloadFromPath (flatLoader clsBadDestroy) "/r/a.ts" true
      (loadFromPath (flatLoader clsBadDestroy) envWidget "/r/a.ts" none
        true initialState).2).2.pathMap =
      (loadFromPath (flatLoader clsBadDestroy) envWidget "/r/a.ts" none
        true initialState).2.pathMap ∧
    (unloadFromPath (flatLoader clsBadDestroy) "/r/a.ts" true
      (loadFromPath (flatLoader clsBadDestroy) envWidget "/r/a.ts" none
        true initialState).2).2.nameMap =
      (loadFromPath (flatLoader clsBadDestroy) envWidget "/r/a.ts" none
        true initialState).2.nameMap ∧
    (unloadFromPath (flatLoader clsBadDestroy) "/r/a.ts" true
      (loadFromPath (flatLoader clsBadDestroy) envWidget "/r/a.ts" none
        true initialState).2).2.events =
      (loadFromPath (flatLoader clsBadDestroy) envWidget "/r/a.ts" none
        true initialState).2.events :=
  c5_destroy_failure_keeps_rows (flatLoader clsBadDestroy) (fun _ => false)
    "/r/a.ts" (Value.obj 0) true
    (loadFromPath (flatLoader clsBadDestroy) envWidget "/r/a.ts" none true
      initialState).2
    rfl rfl (by decide)

/-! ### Claim C6 -/

/-- What `initFile` does when instantiation applies: the identity rows are
written with the effective (caller-supplied or path-derived) name before
the source reassigns the local `name` to `constructor.name`. -/
theorem initFile_instantiated (L : Loader) (n? : Option String) (p : String)
    (mdl : Module) (s : LoaderState) (c : Ctor)
    (hinst : L.classes.instantiate = true)
    (hc : findConstructor L (effectiveName L n? p) mdl = some c) :
    (initFile L n? p mdl s).1 = Value.obj s.nextId ∧
    (initFile L n? p mdl s).2.pathMap =
      alSet s.pathMap (processName (effectiveName L n? p)) p ∧
    (initFile L n? p mdl s).2.nameMap =
      alSet s.nameMap (Value.obj s.nextId) (effectiveName L n? p) ∧
    (initFile L n? p mdl s).2.fileMap =
      alSet s.fileMap p (Value.obj s.nextId) := by
  unfold initFile
  dsimp only
  cases hw : L.watch <;> simp [hinst, hc]

/-- The state after a fresh `loadFromPath` has the maps `initFile`
produced. -/
theorem loadFromPath_fresh_state (L : Loader) (env : Env) (p : String)
    (n? : Option String) (s : LoaderState) (mdl : Module)
    (hm : alGet s.fileMap p = none) (he : env.importFile p = some mdl) :
    (loadFromPath L env p n? true s).1 = .ok (initFile L n? p mdl s).1 ∧
    (loadFromPath L env p n? true s).2.pathMap =
      (initFile L n? p mdl s).2.pathMap ∧
    (loadFromPath L env p n? true s).2.nameMap =
      (initFile L n? p mdl s).2.nameMap ∧
    (loadFromPath L env p n? true s).2.fileMap =
      (initFile L n? p mdl s).2.fileMap := by
  simp [loadFromPath, hm, he]

/-- The state after loading `/r/a.ts`, whose module's default export is a
constructor named `Widget`. -/
def c6state : LoaderState :=
  (loadFromPath (flatLoader defaultClassOptions) envWidget "/r/a.ts" none
    true initialState).2

/-- C6 counterexample: the module at `/r/a.ts` has a constructor named
`Widget`, yet after `loadFromPath` the identity table registers the unit
under the path-derived name `a`: by-name lookup of `Widget` finds
nothing, lookup of `a` finds the path, and the instance maps to `a`. -/
theorem c6_counterexample :
    envWidget.importFile "/r/a.ts" =
      some { modId := 0, defaultExport := some { ctorName := "Widget" } } ∧
    findPathFromName c6state "Widget" = none ∧
    findPathFromName c6state "a" = some "/r/a.ts" ∧
    alGet c6state.nameMap (Value.obj 0) = some "a" := by
  refine ⟨rfl, rfl, rfl, rfl⟩

/-- C6 (amended): the constructor's own name never enters the identity
table.  When instantiation applies, the rows are registered under the
effective (caller-supplied or path-derived) name regardless of the
constructor's name, and the constructor's name resolves to nothing when
it differs from the effective name and was not otherwise registered: the
source's `name = constructor.name` runs only after the rows are written
and is not read again. -/
theorem c6_identity_rows_use_effective_name (L : Loader) (env : Env)
    (p : String) (n? : Option String) (s : LoaderState) (mdl : Module)
    (c : Ctor)
    (hm : alGet s.fileMap p = none) (he : env.importFile p = some mdl)
    (hinst : L.classes.instantiate = true)
    (hc : findConstructor L (effectiveName L n? p) mdl = some c)
    (hnc : processName c.ctorName ≠ processName (effectiveName L n? p))
    (hpc : alGet s.pathMap (processName c.ctorName) = none) :
    (loadFromPath L env p n? true s).1 = .ok (Value.obj s.nextId) ∧
    alGet (loadFromPath L env p n? true s).2.pathMap
      (processName (effectiveName L n? p)) = some p ∧
    alGet (loadFromPath L env p n? true s).2.nameMap
      (Value.obj s.nextId) = some (effectiveName L n? p) ∧
    findPathFromName (loadFromPath L env p n? true s).2 c.ctorName =
      none := by
  obtain ⟨i1, i2, i3, i4⟩ := initFile_instantiated L n? p mdl s c hinst hc
  obtain ⟨f1, f2, f3, f4⟩ := loadFromPath_fresh_state L env p n? s mdl hm he
  refine ⟨by rw [f1, i1], ?_, ?_, ?_⟩
  · rw [f2, i2, alGet_alSet_self]
  · rw [f3, i3, alGet_alSet_self]
  · rw [findPathFromName, f2, i2, alGet_alSet_ne _ _ _ _ hnc, hpc]

/-- C6 witness: the amended theorem at `/r/a.ts` with constructor
`Widget`. -/
theorem c6_witness :
    (loadFromPath (flatLoader defaultClassOptions) envWidget "/r/a.ts"
      none true initialState).1 = .ok (Value.obj 0) ∧
    alGet (loadFromPath (flatLoader defaultClassOptions) envWidget
      "/r/a.ts" none true initialState).2.pathMap
      (processName (effectiveName (flatLoader defaultClassOptions) none
        "/r/a.ts")) = some "/r/a.ts" ∧
    alGet (loadFromPath (flatLoader defaultClassOptions) envWidget
      "/r/a.ts" none true initialState).2.nameMap (Value.obj 0) =
      some (effectiveName (flatLoader defaultClassOptions) none "/r/a.ts") ∧
    findPathFromName (loadFromPath (flatLoader defaultClassOptions)
      envWidget "/r/a.ts" none true initialState).2 "Widget" = none :=
  c6_identity_rows_use_effective_name (flatLoader defaultClassOptions)
    envWidget "/r/a.ts" none initialState
    { modId := 0, defaultExport := some { ctorName := "Widget" } }
    { ctorName := "Widget" }
    (by decide) rfl rfl rfl (by decide) (by decide)

/-! ### Claim C7 -/

theorem strAppend_ne_empty (a b : String) (ha : a ≠ "") : a ++ b ≠ "" := by
  intro h
  apply ha
  apply String.ext
  have hdata : a.data ++ b.data = [] := by
    have h2 := congrArg String.data h
    rwa [String.data_append] at h2
  have : a.data = [] := (List.append_eq_nil.mp hdata).1
  simp [this]

theorem joinPath_ne_empty (a b : String) (ha : a ≠ "") :
    joinPath a b ≠ "" := by
  unfold joinPath
  split
  · exact absurd (by assumption) ha
  · split
    · exact ha
    · split
      · exact strAppend_ne_empty a b ha
      · exact strAppend_ne_empty (a ++ "/") b
          (strAppend_ne_empty a "/" ha)

theorem resolvePath_ne_empty (cwd p : String) (h : cwd ≠ "") :
    resolvePath cwd p ≠ "" := by
  unfold resolvePath
  split
  · rename_i hsw
    intro hp
    rw [hp] at hsw
    exact absurd hsw (by decide)
  · exact joinPath_ne_empty cwd p h

/-- The options of the C7 counterexample: empty root path AND nesting
without a main-file rule. -/
def c7opts : LoaderOptions :=
  { path := "", nested := true, mainFile := none, ignored := [],
    autoLoad := true, classes := none, allowedFileExts := none,
    watch := false }

/-- C7 counterexample: with an empty root path and nesting enabled
without a main-file rule, construction succeeds — no `ConfigError`.  The
root is passed through `path.resolve` first (yielding the working
directory, never empty) and the main-file rule is defaulted to
`'index' + fileExt` before the guard runs, so the guard never fires. -/
theorem c7_counterexample :
    mkLoader ".ts" "/cwd" c7opts =
      .ok ({ path := "/cwd", nested := true, mainFile := .lit "index.ts",
             classes := defaultClassOptions,
             allowedFileExts := defaultAllowedExts, ignored := [],
             watch := false }, initialState) := rfl

/-- C7 (amended): construction never fails with `ConfigError` for any
options whatsoever (given a non-empty working directory): the resolved
root path is never empty and the defaulted main-file rule is never
falsy, so the guard's condition is unsatisfiable. -/
theorem c7_construction_never_config_error (fileExt cwd : String)
    (opts : LoaderOptions) (hcwd : cwd ≠ "") :
    ∃ Ls, mkLoader fileExt cwd opts = .ok Ls := by
  unfold mkLoader
  have hp : resolvePath cwd opts.path ≠ "" := resolvePath_ne_empty cwd opts.path hcwd
  rcases hopt : opts.mainFile with _ | m0
  · simp only [hopt]
    rw [if_neg]
    · exact ⟨_, rfl⟩
    · push_neg
      refine ⟨hp, ?_⟩
      intro _
      simp only [mainFileTruthy]
      cases fileExt with
      | mk l => simp
  · by_cases ht : mainFileTruthy m0 = true
    · simp only [hopt, ht, if_true]
      rw [if_neg]
      · exact ⟨_, rfl⟩
      · push_neg
        exact ⟨hp, fun _ => by simp⟩
    · simp only [hopt, ht, Bool.false_eq_true, if_false]
      rw [if_neg]
      · exact ⟨_, rfl⟩
      · push_neg
        refine ⟨hp, ?_⟩
        intro _
        simp only [mainFileTruthy]
        cases fileExt with
        | mk l => simp

/-- C7 witness: construction succeeds at a concrete nested,
main-file-less configuration. -/
theorem c7_witness : ∃ Ls, mkLoader ".js" "/w" c7opts = .ok Ls :=
  c7_construction_never_config_error ".js" "/w" c7opts (by decide)

/-! ### Claim C8 -/

/-- The state after loading `/r/a.ts` with instantiation disabled: the
raw module is kept. -/
def c8state : LoaderState :=
  (loadFromPath (flatLoader clsNoInst) envWidget "/r/a.ts" none true
    initialState).2

/-- C8 counterexample: with instantiation disabled the raw module is the
loaded unit, yet no name row is written at all — the instance-to-name
lookup yields nothing, so the round trip fails for raw units. -/
theorem c8_counterexample :
    alGet c8state.fileMap "/r/a.ts" = some (Value.mod 0) ∧
    alGet c8state.nameMap (Value.mod 0) = none ∧
    c8state.nameMap = [] ∧ c8state.pathMap = [] := by
  refine ⟨rfl, rfl, rfl, rfl⟩

/-- C8 (amended): the round trip holds for instantiated units right after
their load — the instance maps to its name, the name resolves to the
load path, and the path stores the instance, all simultaneously.  Raw
modules kept without instantiation get no name rows (see the
counterexample). -/
theorem c8_roundtrip_instantiated (L : Loader) (env : Env) (p : String)
    (n? : Option String) (s : LoaderState) (mdl : Module) (c : Ctor)
    (hm : alGet s.fileMap p = none) (he : env.importFile p = some mdl)
    (hinst : L.classes.instantiate = true)
    (hc : findConstructor L (effectiveName L n? p) mdl = some c) :
    (loadFromPath L env p n? true s).1 = .ok (Value.obj s.nextId) ∧
    alGet (loadFromPath L env p n? true s).2.nameMap (Value.obj s.nextId) =
      some (effectiveName L n? p) ∧
    findPathFromName (loadFromPath L env p n? true s).2
      (effectiveName L n? p) = some p ∧
    alGet (loadFromPath L env p n? true s).2.fileMap p =
      some (Value.obj s.nextId) := by
  obtain ⟨i1, i2, i3, i4⟩ := initFile_instantiated L n? p mdl s c hinst hc
  obtain ⟨f1, f2, f3, f4⟩ := loadFromPath_fresh_state L env p n? s mdl hm he
  refine ⟨by rw [f1, i1], ?_, ?_, ?_⟩
  · rw [f3, i3, alGet_alSet_self]
  · rw [findPathFromName, f2, i2, alGet_alSet_self]
  · rw [f4, i4, alGet_alSet_self]

/-- C8 witness: the amended theorem at `/r/a.ts` from the empty state. -/
theorem c8_witness :
    (loadFromPath (flatLoader defaultClassOptions) envWidget "/r/a.ts"
      none true initialState).1 = .ok (Value.obj 0) ∧
    alGet (loadFromPath (flatLoader defaultClassOptions) envWidget
      "/r/a.ts" none true initialState).2.nameMap (Value.obj 0) =
      some (effectiveName (flatLoader defaultClassOptions) none "/r/a.ts") ∧
    findPathFromName (loadFromPath (flatLoader defaultClassOptions)
      envWidget "/r/a.ts" none true initialState).2
      (effectiveName (flatLoader defaultClassOptions) none "/r/a.ts") =
      some "/r/a.ts" ∧
    alGet (loadFromPath (flatLoader defaultClassOptions) envWidget
      "/r/a.ts" none true initialState).2.fileMap "/r/a.ts" =
      some (Value.obj 0) :=
  c8_roundtrip_instantiated (flatLoader defaultClassOptions) envWidget
    "/r/a.ts" none initialState
    { modId := 0, defaultExport := some { ctorName := "Widget" } }
    { ctorName := "Widget" }
    (by decide) rfl rfl rfl

/-! ### Claim C9 -/

/-- The state after loading the nested unit `/root/bakery/index.ts`. -/
def c9state : LoaderState :=
  (loadFromPath nestedLoader envBakery "/root/bakery/index.ts" none true
    initialState).2

/-- C9 evaluated at the failing input: with the nested unit
`/root/bakery/index.ts` loaded, a change notification for
`/root/bakery/lib/util.ts` (a file deep inside the unit's directory) is
folded to the bare relative segment `bakery` — not the unit's registered
main-file path — which is never a `fileMap` key, so the handler drops
the notification and no reload happens even though the unit is loaded. -/
theorem c9_nested_fold_misses_key :
    alGet c9state.fileMap "/root/bakery/index.ts" = some (Value.obj 0) ∧
    foldWatchPath nestedLoader "/root/bakery/lib/util.ts" = "bakery" ∧
    alGet c9state.fileMap "bakery" = none ∧
    onWatchEvent nestedLoader envBakery "/root/bakery/lib/util.ts"
      c9state = (.ok none, c9state) := by
  refine ⟨rfl, rfl, rfl, rfl⟩

/-! ### Claim C10 -/

/-- C10: a `loadFromPath` of a not-yet-loaded path without a
caller-supplied name emits `load` whose name payload is the absent
(undefined) caller name — `none` — not the logical name `initFile`
derived from the path: the derivation stays local to `initFile`. -/
theorem c10_load_event_caller_name (L : Loader) (env : Env) (p : String)
    (s : LoaderState) (mdl : Module)
    (hm : alGet s.fileMap p = none) (he : env.importFile p = some mdl) :
    (loadFromPath L env p none true s).1 =
      .ok (initFile L none p mdl s).1 ∧
    (loadFromPath L env p none true s).2.events =
      s.events ++ [Event.load none (initFile L none p mdl s).1] := by
  simp [loadFromPath, hm, he, initFile_events]

/-- C10 witness: the load of `/r/a.ts` from the empty state emits
`load` with payload name `none` while the derived name would have been
`a`. -/
theorem c10_witness :
    (loadFromPath (flatLoader defaultClassOptions) envWidget "/r/a.ts"
      none true initialState).1 =
      .ok (initFile (flatLoader defaultClassOptions) none "/r/a.ts"
        { modId := 0, defaultExport := some { ctorName := "Widget" } }
        initialState).1 ∧
    (loadFromPath (flatLoader defaultClassOptions) envWidget "/r/a.ts"
      none true initialState).2.events =
      initialState.events ++
        [Event.load none (initFile (flatLoader defaultClassOptions) none
          "/r/a.ts"
          { modId := 0, defaultExport := some { ctorName := "Widget" } }
          initialState).1] :=
  c10_load_event_caller_name (flatLoader defaultClassOptions) envWidget
    "/r/a.ts" initialState
    { modId := 0, defaultExport := some { ctorName := "Widget" } }
    (by decide) rfl

end FileLoader
